import Mathlib

/-!
Verification of the hierarchical IP address allocation engine of the
cdk-extensions repository: tiered subnet allocation
(`src/ec2/lib/ip-addresses/tiered-subnets.ts`), the IPAM pool hierarchy
(`ipam-pool.ts`), and the top-level IPAM container (`ipam.ts`).

The TypeScript classes are embedded shallowly: each stateful object becomes a
Lean structure, each mutating method becomes a function from the old state to
an `Except` of the new state (a thrown `Error` becomes `Except.error`), and
CloudFormation intrinsic calls (`Fn.cidr` / `Fn.select`) become symbolic
expression constructors.
-/

namespace CdkExt

/-- Error kinds of the allocation engine (spec section 7 taxonomy, plus the
duplicate-construct-id error raised by the constructs library when a child
with an already-used id is created under the same scope). -/
inductive IpamError where
  | invalidPrefixLength
  | addressSpaceExhausted
  | prefixTooWide
  | maskTooNarrow
  | duplicateCidr
  | localeMismatch
  | nestingUnsupported
  | duplicateTagRestrictionKey
  | scopeQuotaExceeded
  | duplicateRegion
  | missingNetmask
  | tierMaskTooNarrow
  | inconsistentSubnetSize
  | subnetMaskTooNarrow
  | duplicateConstructId
  deriving DecidableEq, Repr

/-- An IPv4 CIDR block: base address plus prefix (netmask) length. -/
structure Cidr where
  base : Nat
  netmask : Nat
  deriving DecidableEq, Repr

/-- Modelled from the spec: `getBiggestMask` from `src/utils/networking`
(absent from the source bundle; spec section 4.1 `biggestChildPrefix`): the
smallest prefix length `p >= parentPrefix` such that `2 ^ (p - parentPrefix)
>= childCount`, i.e. the minimal subdivision that fits `childCount` equal
children; fails with `AddressSpaceExhausted` when that prefix would exceed
the IPv4 family width of 32. -/
def getBiggestMask (netmask count : Nat) : Except IpamError Nat :=
  match (List.range 33).find? (fun p => decide (netmask ≤ p ∧ count ≤ 2 ^ (p - netmask))) with
  | some p => .ok p
  | none => .error .addressSpaceExhausted

/-- Modelled from the spec: `divideCidr` from `src/utils/networking` (absent
from the source bundle; spec section 4.1 `partition` and section 4.4 step 2):
splits `parent` into `count` contiguous equal blocks in ascending address
order at the caller-supplied prefix when one is given (rejecting a prefix
wider than the computed maximum with `PrefixTooWide` per section 4.1, and one
narrower than it with a mask-too-narrow failure per section 4.4), otherwise
at the computed `getBiggestMask` prefix. -/
def divideCidr (parent : Cidr) (count : Nat) (netmask : Option Nat) :
    Except IpamError (List Cidr) := do
  let biggest ← getBiggestMask parent.netmask count
  let effective := netmask.getD biggest
  if effective < biggest then
    Except.error .prefixTooWide
  else if biggest < effective then
    Except.error .maskTooNarrow
  else
    Except.ok ((List.range count).map (fun i => ⟨parent.base + i * 2 ^ (32 - effective), effective⟩))

/-- Accumulator form of first-seen-order deduplication (the behaviour of the
TypeScript idiom `Array.from(new Set(xs))`). -/
def dedupAcc {α : Type} [BEq α] (acc : List α) : List α → List α
  | [] => acc
  | x :: xs => if acc.contains x then dedupAcc acc xs else dedupAcc (acc ++ [x]) xs

/-- `Array.from(new Set(xs))`: duplicates removed, first occurrences kept in
order. -/
def dedupFirstSeen {α : Type} [BEq α] (l : List α) : List α := dedupAcc [] l

/-- One entry of `AllocateCidrRequest.requestedSubnets`: the subnet group
(tier) name, the availability zone, and the optional explicit
`configuration.cidrMask`. -/
structure RequestedSubnet where
  tierName : String
  az : String
  cidrMask : Option Nat
  deriving DecidableEq, Repr

/-- `input.requestedSubnets.filter((x) => x.configuration.name === tier)`. -/
def tierSubnetsOf (reqs : List RequestedSubnet) (tier : String) : List RequestedSubnet :=
  reqs.filter (fun x => x.tierName == tier)

/-- `Array.from(new Set(tierSubnets.map((x) => x.configuration.cidrMask)))`:
the deduplicated explicit mask values (including the absent value) of one
tier's requested subnets. -/
def tierMaskSet (reqs : List RequestedSubnet) (tier : String) : List (Option Nat) :=
  dedupFirstSeen ((tierSubnetsOf reqs tier).map (fun x => x.cidrMask))

/-- JavaScript truthiness test `m && m > bound` for an optional number `m`:
false when the value is absent or zero. -/
def truthyGt (m : Option Nat) (bound : Nat) : Bool :=
  match m with
  | none => false
  | some v => v != 0 && bound < v

/-- Body of the per-tier `forEach` loop of
`TieredSubnets.allocateSubnetsCidrNoIpam` (tiered-subnets.ts lines 148-163):
collects the tier's subnets, rejects heterogeneous explicit masks, then
divides the tier's block into `azs.length` sub-blocks (the globally
deduplicated availability-zone count) and pairs them with the zones by global
zone index. -/
def processTierNoIpam (azs : List String) (reqs : List RequestedSubnet)
    (tierNetwork : Cidr) (tier : String) : Except IpamError (List (String × Cidr)) :=
  let maskBits := tierMaskSet reqs tier
  if maskBits.length > 1 then
    Except.error .inconsistentSubnetSize
  else do
    let azNetworks ← divideCidr tierNetwork azs.length (maskBits.headD none)
    Except.ok (azs.enum.map (fun q => (q.2, azNetworks.getD q.1 ⟨0, 0⟩)))

/-- `TieredSubnets.allocateSubnetsCidrNoIpam` (tiered-subnets.ts lines
131-177): deduplicates tier and zone names in first-seen order, divides the
VPC block into one block per tier (honouring `tierMask`), runs the per-tier
loop, and maps every requested subnet to `networkMap[tier][az]`. -/
def allocateSubnetsCidrNoIpam (tierMask : Option Nat) (vpcCidr : Cidr)
    (reqs : List RequestedSubnet) : Except IpamError (List Cidr) := do
  let tiers := dedupFirstSeen (reqs.map (fun x => x.tierName))
  let azs := dedupFirstSeen (reqs.map (fun x => x.az))
  let tierNetworks ← divideCidr vpcCidr tiers.length tierMask
  let networkMap ← tiers.enum.mapM (fun p => do
    let m ← processTierNoIpam azs reqs (tierNetworks.getD p.1 ⟨0, 0⟩) p.2
    Except.ok (p.2, m))
  Except.ok (reqs.map (fun x =>
    (((networkMap.lookup x.tierName).getD []).lookup x.az).getD ⟨0, 0⟩))

/-- A symbolic CloudFormation string expression: either a literal, or
`Fn.select(idx, Fn.cidr(parent, count, hostBits))` — the `idx`-th block of a
deferred equal-width split of `parent` into `count` blocks with `hostBits`
host bits each. -/
inductive CfnExpr where
  | lit (s : String)
  | cidrSelect (parent : CfnExpr) (count : Nat) (hostBits : Nat) (idx : Nat)
  deriving DecidableEq, Repr

/-- Body of the per-tier `forEach` loop of
`TieredSubnets.allocateSubnetsCidrIpam` (tiered-subnets.ts lines 89-118):
computes the biggest feasible subnet mask from the tier's own subnet count,
rejects heterogeneous explicit masks, rejects an explicit mask narrower than
the biggest feasible one, then pairs every globally deduplicated zone with
`Fn.select(globalZoneIndex, Fn.cidr(tierNetwork, tierSubnets.length, ...))`. -/
def processTierIpam (azs : List String) (reqs : List RequestedSubnet)
    (effectiveTierMask : Nat) (tierNetwork : CfnExpr) (tier : String) :
    Except IpamError (List (String × CfnExpr)) := do
  let tierSubnets := tierSubnetsOf reqs tier
  let subnetMask := tierMaskSet reqs tier
  let biggestSubnetMask ← getBiggestMask effectiveTierMask tierSubnets.length
  if subnetMask.length > 1 then
    Except.error .inconsistentSubnetSize
  else if truthyGt (subnetMask.headD none) biggestSubnetMask then
    Except.error .subnetMaskTooNarrow
  else
    let effectiveSubnetMask := (subnetMask.headD none).getD biggestSubnetMask
    Except.ok (azs.enum.map (fun q =>
      (q.2, CfnExpr.cidrSelect tierNetwork tierSubnets.length (32 - effectiveSubnetMask) q.1)))

/-- `TieredSubnets.allocateSubnetsCidrIpam` (tiered-subnets.ts lines 58-129):
requires an explicit netmask, computes the biggest feasible tier mask from
the number of distinct tiers, rejects a caller tier mask numerically larger
than it, then builds the symbolic per-tier / per-zone blocks. -/
def allocateSubnetsCidrIpam (tierMask : Option Nat) (ipv4NetmaskLength : Option Nat)
    (vpcCidr : CfnExpr) (reqs : List RequestedSubnet) : Except IpamError (List CfnExpr) :=
  let tiers := dedupFirstSeen (reqs.map (fun x => x.tierName))
  let azs := dedupFirstSeen (reqs.map (fun x => x.az))
  match ipv4NetmaskLength with
  | none => Except.error .missingNetmask
  | some netmask => do
    let biggestMaskTier ← getBiggestMask netmask tiers.length
    if truthyGt tierMask biggestMaskTier then
      Except.error .tierMaskTooNarrow
    else do
      let effectiveTierMask := tierMask.getD biggestMaskTier
      let networkMap ← tiers.enum.mapM (fun p => do
        let tierNetwork := CfnExpr.cidrSelect vpcCidr tiers.length (32 - effectiveTierMask) p.1
        let m ← processTierIpam azs reqs effectiveTierMask tierNetwork p.2
        Except.ok (p.2, m))
      Except.ok (reqs.map (fun x =>
        (((networkMap.lookup x.tierName).getD []).lookup x.az).getD (CfnExpr.lit "")))

/-- A CDK string value: the string together with whether it is an unresolved
token (a deploy-time placeholder recognised by `Token.isUnresolved`). -/
structure TokenString where
  val : String
  unresolved : Bool
  deriving DecidableEq, Repr

/-- State of an `IpamPool` (ipam-pool.ts): the construct path, the locale,
the advertising service name (`addressConfiguration?.advertiseService?.name`),
the public IP source name (`publicIpSource?.name`), and the two internal
mutable collections `_provisionedCidrs` and `_tagRestrictions`. -/
structure IpamPoolState where
  poolPath : String
  locale : Option TokenString
  advertiseService : Option String
  publicIpSource : Option String
  provisionedCidrs : List String
  tagRestrictions : List (String × String)
  deriving DecidableEq, Repr

/-- `IpamPool.validateChildLocale` (ipam-pool.ts lines 312-331), embedded
as written: the strict branch is entered when `this.locale` is truthy AND
`Token.isUnresolved(this.locale)` holds (no negation in the source); inside
it a child with no locale or an unresolved locale passes, and a resolved
child locale is compared with `===` against this pool's locale; every other
case returns true. -/
def validateChildLocale (poolLocale : Option TokenString) (locale : Option TokenString) : Bool :=
  match poolLocale with
  | some l =>
    if l.val != "" && l.unresolved then
      match locale with
      | none => true
      | some c => if c.unresolved then true else l.val == c.val
    else
      true
  | none => true

/-- JavaScript truthiness of `advertiseService?.name`: present and
non-empty. -/
def serviceTruthy : Option String → Bool
  | none => false
  | some s => s != ""

/-- `IpamPool.validateNestingSupport` (ipam-pool.ts lines 333-338):
`!(!!service && ipSource === PublicIpSource.BYOIP.name)`. -/
def validateNestingSupport (advertiseService : Option String)
    (publicIpSource : Option String) : Bool :=
  !(serviceTruthy advertiseService && publicIpSource == some "byoip")

/-- The subset of `AddChildPoolOptions` the validation logic consumes. -/
structure AddChildPoolOptions where
  locale : Option TokenString := none
  deriving DecidableEq, Repr

/-- `IpamPool.addChildPool` (ipam-pool.ts lines 278-298): throws a
locale-mismatch error when `validateChildLocale(options?.locale)` is false,
throws the nesting-unsupported error when `validateNestingSupport()` is TRUE
(as in the source), and otherwise creates the child pool via
`super.addChildPool(id, { locale: this.locale, ...options })` — the child
inherits this pool's locale when the options omit one, shares the address
family, and starts with fresh collections and no advertise service or public
IP source (ipam-pool.ts lines 91-106). -/
def addChildPool (s : IpamPoolState) (childId : String)
    (options : Option AddChildPoolOptions) : Except IpamError IpamPoolState :=
  if !(validateChildLocale s.locale (options.bind (fun o => o.locale))) then
    Except.error .localeMismatch
  else if validateNestingSupport s.advertiseService s.publicIpSource then
    Except.error .nestingUnsupported
  else
    Except.ok
      { poolPath := s.poolPath ++ "/pool-" ++ childId
        locale := (options.bind (fun o => o.locale)).orElse (fun _ => s.locale)
        advertiseService := none
        publicIpSource := none
        provisionedCidrs := []
        tagRestrictions := [] }

/-- An `IIpamPoolCidrConfiguration` as the pool observes it: its `inline`
flag and the `cidr` the configuration yields once bound (absent when the
configuration cannot produce a concrete literal). -/
structure CidrConfiguration where
  inline : Bool
  boundCidr : Option String
  deriving DecidableEq, Repr

/-- `AddCidrToPoolOptions`: the optional `allowInline` flag and the
configuration. -/
structure AddCidrToPoolOptions where
  allowInline : Option Bool := none
  configuration : CidrConfiguration
  deriving DecidableEq, Repr

/-- `AddCidrToPoolResult`: whether a deferred `IpamPoolCidr` child entity was
created, and the reported `inline` flag. -/
structure AddCidrToPoolResult where
  cidrCreated : Bool
  inline : Bool
  deriving DecidableEq, Repr

/-- The non-fatal warning emitted on the inline-registration fallback path
(ipam-pool.ts lines 249-256). -/
def inlineFallbackWarning : String :=
  String.intercalate " " [
    "Attempted to register an inline IPAM pool CIDR using a",
    "configuration that does not provide a concrete CIDR. This likely",
    "indicates a misconfigured custom configuration. Attempting to fall",
    "back to using a non-inline implementation. Because binding was",
    "already attempted for an inline configuration consistency cannot",
    "be guaranteed."]

/-- `IpamPool.addCidrToPool` (ipam-pool.ts lines 243-276): when
`allowInline ?? true` and the configuration is inline, bind it; a missing
concrete CIDR warns and falls through to the base-class path
(`IpamPoolBase.addCidrToPool`, lines 81-89, which creates a deferred
`IpamPoolCidr` and reports `inline: false`); a CIDR already present in
`_provisionedCidrs` throws the duplicate error; otherwise the literal is
pushed and `inline: true` is reported. The non-inline path is the base-class
path with no warning. Returns the result, the new pool state, and the
warnings emitted. -/
def addCidrToPool (s : IpamPoolState) (options : AddCidrToPoolOptions) :
    Except IpamError (AddCidrToPoolResult × IpamPoolState × List String) :=
  if options.allowInline.getD true && options.configuration.inline then
    match options.configuration.boundCidr with
    | none =>
      Except.ok (⟨true, false⟩, s, [inlineFallbackWarning])
    | some cidr =>
      if s.provisionedCidrs.contains cidr then
        Except.error .duplicateCidr
      else
        Except.ok (⟨false, true⟩,
          { s with provisionedCidrs := s.provisionedCidrs ++ [cidr] }, [])
  else
    Except.ok (⟨true, false⟩, s, [])

/-- `IpamPool.addTagRestriction` (ipam-pool.ts lines 300-310): throws on a
duplicate key, otherwise records the pair. -/
def addTagRestriction (s : IpamPoolState) (key value : String) :
    Except IpamError IpamPoolState :=
  if (s.tagRestrictions.lookup key).isSome then
    Except.error .duplicateTagRestrictionKey
  else
    Except.ok { s with tagRestrictions := s.tagRestrictions ++ [(key, value)] }

/-- `IpamAllocationOptions` as consumed here: the requested netmask length
(absent means the pool default). -/
structure IpamAllocationOptions where
  netmaskLength : Option Nat := none
  deriving DecidableEq, Repr

/-- Modelled from the spec: the `IpamAllocation` entity (ipam-allocation.ts
is absent from the source bundle; spec section 3 `Allocation`): a reference
to the source pool and the requested size. -/
structure IpamAllocationModel where
  ipamPoolPath : String
  netmaskLength : Option Nat
  deriving DecidableEq, Repr

/-- `IpamPoolBase.allocateCidrFromPool` (ipam-pool.ts lines 108-114):
creates a new `IpamAllocation` child entity referencing this pool with the
requested options; the pool state itself is not touched. -/
def allocateCidrFromPool (s : IpamPoolState) (options : IpamAllocationOptions) :
    IpamAllocationModel × IpamPoolState :=
  (⟨s.poolPath, options.netmaskLength⟩, s)

/-- State of the top-level `Ipam` container (ipam.ts): the construct ids of
its children (the constructs library rejects a repeated id), the scopes
created through `addScope`, the resource-discovery association keys, and the
operating regions. -/
structure IpamState where
  childIds : List String
  scopes : List String
  associations : List String
  regions : List String
  deriving DecidableEq, Repr

/-- Creation of a child construct under the container (the constructs
library's `Node.addChild`): a child with an id already used under the same
scope fails. -/
def ipamAddChild (s : IpamState) (cid : String) : Except IpamError IpamState :=
  if s.childIds.contains cid then
    Except.error .duplicateConstructId
  else
    Except.ok { s with childIds := s.childIds ++ [cid] }

/-- `IpamBase.addScope` (ipam.ts lines 116-121): creates a new
`PrivateIpamScope` with construct id `scope-` ++ id under the container.
There is no quota check of any kind in the method; per spec section 3 the
scope itself performs none either. -/
def addScope (s : IpamState) (id : String) : Except IpamError (IpamState × String) :=
  match ipamAddChild s ("scope-" ++ id) with
  | .error e => .error e
  | .ok s' => .ok ({ s' with scopes := s'.scopes ++ ["scope-" ++ id] }, "scope-" ++ id)

/-- `IpamBase.associateResourceDiscovery` (ipam.ts lines 134-139): creates an
`IpamResourceDiscoveryAssociation` whose construct id is derived from the
discovery reference's node address
(`resource-discovery-` ++ resourceDiscovery.node.addr). -/
def associateResourceDiscovery (s : IpamState) (refAddr : String) :
    Except IpamError (IpamState × String) :=
  match ipamAddChild s ("resource-discovery-" ++ refAddr) with
  | .error e => .error e
  | .ok s' =>
    .ok ({ s' with associations := s'.associations ++ [refAddr] },
      "resource-discovery-" ++ refAddr)

/-- `Ipam.addRegion` (ipam.ts lines 429-438): duplicate region throws,
otherwise the region is appended. -/
def addRegion (s : IpamState) (region : String) : Except IpamError IpamState :=
  if s.regions.contains region then
    Except.error .duplicateRegion
  else
    Except.ok { s with regions := s.regions ++ [region] }

/-! ### Helper lemmas -/

theorem mem_dedupAcc {α : Type} [BEq α] [LawfulBEq α] {a : α} (acc l : List α) :
    a ∈ dedupAcc acc l ↔ a ∈ acc ∨ a ∈ l := by
  induction l generalizing acc with
  | nil => simp [dedupAcc]
  | cons x xs ih =>
    by_cases hx : acc.contains x
    · have hmem : x ∈ acc := by simpa using hx
      simp only [dedupAcc, if_pos hx, ih, List.mem_cons]
      constructor
      · rintro (h | h)
        · exact Or.inl h
        · exact Or.inr (Or.inr h)
      · rintro (h | h | h)
        · exact Or.inl h
        · exact Or.inl (h ▸ hmem)
        · exact Or.inr h
    · simp only [dedupAcc, if_neg hx, ih, List.mem_append, List.mem_singleton, List.mem_cons]
      tauto

theorem mem_dedupFirstSeen {α : Type} [BEq α] [LawfulBEq α] {a : α} (l : List α) :
    a ∈ dedupFirstSeen l ↔ a ∈ l := by
  simp [dedupFirstSeen, mem_dedupAcc]

theorem except_bind_ok {ε α β : Type} (a : α) (f : α → Except ε β) :
    (Except.ok (ε := ε) a >>= f) = f a := rfl

theorem except_bind_error {ε α β : Type} (e : ε) (f : α → Except ε β) :
    (Except.error (α := α) e >>= f) = Except.error (α := β) e := rfl

theorem nodup_dedupAcc {α : Type} [BEq α] [LawfulBEq α] (acc l : List α)
    (h : acc.Nodup) : (dedupAcc acc l).Nodup := by
  induction l generalizing acc with
  | nil => simpa [dedupAcc] using h
  | cons x xs ih =>
    by_cases hx : acc.contains x
    · simp only [dedupAcc, if_pos hx]
      exact ih acc h
    · have hnot : x ∉ acc := by simpa using hx
      simp only [dedupAcc, if_neg hx]
      exact ih (acc ++ [x]) (by simp [List.nodup_append, h, hnot])

theorem nodup_dedupFirstSeen {α : Type} [BEq α] [LawfulBEq α] (l : List α) :
    (dedupFirstSeen l).Nodup :=
  nodup_dedupAcc [] l (by simp)

theorem length_le_one_of_nodup_const {α : Type} {l : List α} {c : α}
    (hn : l.Nodup) (hc : ∀ a ∈ l, a = c) : l.length ≤ 1 := by
  match l with
  | [] => simp
  | [_] => simp
  | x :: y :: _ =>
    have hx : x = c := hc x (by simp)
    have hy : y = c := hc y (by simp)
    rw [List.nodup_cons] at hn
    exact absurd (by simp [hx, hy]) hn.1

theorem one_lt_length_of_two_mem {α : Type} {l : List α} {a b : α}
    (ha : a ∈ l) (hb : b ∈ l) (hab : a ≠ b) : 1 < l.length := by
  match l with
  | [] => cases ha
  | [x] =>
    simp only [List.mem_singleton] at ha hb
    exact absurd (ha.trans hb.symm) hab
  | _ :: _ :: _ => simp

theorem getBiggestMask_error {n c : Nat} {e : IpamError}
    (h : getBiggestMask n c = .error e) : e = .addressSpaceExhausted := by
  unfold getBiggestMask at h
  cases hf : (List.range 33).find? (fun p => decide (n ≤ p ∧ c ≤ 2 ^ (p - n))) with
  | none => rw [hf] at h; exact (Except.error.inj h).symm
  | some p => rw [hf] at h; cases h

theorem divideCidr_error {p : Cidr} {c : Nat} {m : Option Nat} {e : IpamError}
    (h : divideCidr p c m = .error e) :
    e = .addressSpaceExhausted ∨ e = .prefixTooWide ∨ e = .maskTooNarrow := by
  unfold divideCidr at h
  cases hb : getBiggestMask p.netmask c with
  | error e' =>
    rw [hb, except_bind_error] at h
    exact Or.inl ((Except.error.inj h).symm.trans (getBiggestMask_error hb))
  | ok b =>
    rw [hb, except_bind_ok] at h
    dsimp only at h
    split at h
    · exact Or.inr (Or.inl (Except.error.inj h).symm)
    · split at h
      · exact Or.inr (Or.inr (Except.error.inj h).symm)
      · cases h

/-! ### Concrete inputs used by the claim theorems -/

/-- A concrete-CIDR tiered request whose tier `a` holds four zones and whose
tier `b` holds only two of them. -/
def unevenRequest : List RequestedSubnet :=
  [⟨"a", "z1", none⟩, ⟨"a", "z2", none⟩, ⟨"a", "z3", none⟩, ⟨"a", "z4", none⟩,
   ⟨"b", "z1", none⟩, ⟨"b", "z2", none⟩]

/-- An IPAM-mode tiered request whose tier `b` holds only the second
first-seen zone. -/
def unevenRequestIpam : List RequestedSubnet :=
  [⟨"a", "z1", none⟩, ⟨"a", "z2", none⟩, ⟨"b", "z2", none⟩]

/-- A pool with concrete locale `us-west-2`; its advertise service and BYOIP
source make the (inverted) nesting check pass so that child creation reaches
the success path. -/
def poolUsWest2 : IpamPoolState :=
  ⟨"pools/parent", some ⟨"us-west-2", false⟩, some "ec2", some "byoip", [], []⟩

/-- A pool whose advertise service is `ec2` and whose public IP source is
BYOIP (the one combination the spec says forbids nesting). -/
def poolByoipAdvertised : IpamPoolState :=
  ⟨"pools/byoip", none, some "ec2", some "byoip", [], []⟩

/-- A pool with no advertise service and no public IP source (a combination
the spec says permits nesting). -/
def poolPlain : IpamPoolState :=
  ⟨"pools/plain", none, none, none, [], []⟩

/-- An IPAM container already holding five scopes. -/
def ipamWithFiveScopes : IpamState :=
  ⟨["scope-s1", "scope-s2", "scope-s3", "scope-s4", "scope-s5"],
   ["scope-s1", "scope-s2", "scope-s3", "scope-s4", "scope-s5"], [], []⟩

/-! ### Claim theorems -/

/-- C1: evaluating the code at the failing input. In concrete-CIDR mode, a
`10.0.0.0/16` request with four zones in tier `a` but only two in tier `b`
divides BOTH tier blocks by the global distinct-zone count 4 (into `/19`
sub-blocks); sizing tier `b` by its own zone count 2 would give `/18`
sub-blocks. In IPAM mode the pair `(b, z2)` is assigned
`Fn.select(1, Fn.cidr(tierNetwork, 1, ...))` — the zone's global first-seen
position 1 inside tier `b`'s own one-element partition — instead of the
sub-block at its position 0 within its own tier's zone list. -/
theorem C1_zone_split_not_per_tier_eval :
    allocateSubnetsCidrNoIpam none ⟨167772160, 16⟩ unevenRequest =
      .ok [⟨167772160, 19⟩, ⟨167780352, 19⟩, ⟨167788544, 19⟩, ⟨167796736, 19⟩,
           ⟨167804928, 19⟩, ⟨167813120, 19⟩]
  ∧ allocateSubnetsCidrIpam none (some 16) (.lit "10.0.0.0/16") unevenRequestIpam =
      .ok [.cidrSelect (.cidrSelect (.lit "10.0.0.0/16") 2 15 0) 2 14 0,
           .cidrSelect (.cidrSelect (.lit "10.0.0.0/16") 2 15 0) 2 14 1,
           .cidrSelect (.cidrSelect (.lit "10.0.0.0/16") 2 15 1) 1 15 1] :=
  ⟨rfl, rfl⟩

/-- C2: evaluating the code at the failing input. A concrete parent locale
`us-west-2` never enters the strict branch of `validateChildLocale` (the
source tests `Token.isUnresolved(this.locale)` without negation), so a
concrete child locale `us-east-1` passes validation and `addChildPool`
creates the child instead of failing with the locale-mismatch error; the
strict comparison instead fires when the parent locale is an unresolved
token and the child's is concrete — the case the claim says is skipped
optimistically. A child that omits its locale does inherit the parent's. -/
theorem C2_locale_check_inverted_eval :
    validateChildLocale (some ⟨"us-west-2", false⟩) (some ⟨"us-east-1", false⟩) = true
  ∧ validateChildLocale (some ⟨"TOKEN1", true⟩) (some ⟨"us-east-1", false⟩) = false
  ∧ addChildPool poolUsWest2 "child" (some ⟨some ⟨"us-east-1", false⟩⟩) =
      .ok ⟨"pools/parent/pool-child", some ⟨"us-east-1", false⟩, none, none, [], []⟩
  ∧ addChildPool poolUsWest2 "heir" none =
      .ok ⟨"pools/parent/pool-heir", some ⟨"us-west-2", false⟩, none, none, [], []⟩ :=
  ⟨rfl, rfl, rfl, rfl⟩

/-- C3: evaluating the code at the failing input. `addChildPool` throws when
`validateNestingSupport()` returns true, and that method returns the value
`!(service && ipSource === byoip)`: a pool advertising service `ec2` with a
BYOIP source creates its child successfully, while a pool with neither fails
with the nesting-unsupported error — exactly inverted from the claim. -/
theorem C3_nesting_check_inverted_eval :
    addChildPool poolByoipAdvertised "child" none =
      .ok ⟨"pools/byoip/pool-child", none, none, none, [], []⟩
  ∧ addChildPool poolPlain "child" none = .error .nestingUnsupported :=
  ⟨rfl, rfl⟩

/-- A two-tier request (one subnet per tier) used to witness the tier-mask
check. -/
def twoTierRequest : List RequestedSubnet :=
  [⟨"pub", "z1", none⟩, ⟨"priv", "z1", none⟩]

/-- C5: in both modes, an explicit tier mask numerically larger than the
maximum feasible tier prefix — the `getBiggestMask` of the source block's
netmask and the number of distinct tiers — makes the allocation fail with
the tier-mask error before any block is assigned (in concrete-CIDR mode the
shared `divideCidr` raises its mask-too-narrow failure on the very first
division, before any tier is processed). -/
theorem C5_tier_mask_too_narrow :
    (∀ (tm netmask b : Nat) (vpc : CfnExpr) (reqs : List RequestedSubnet),
      getBiggestMask netmask (dedupFirstSeen (reqs.map (fun x => x.tierName))).length = .ok b →
      b < tm →
      allocateSubnetsCidrIpam (some tm) (some netmask) vpc reqs = .error .tierMaskTooNarrow)
  ∧ (∀ (tm b : Nat) (vpc : Cidr) (reqs : List RequestedSubnet),
      getBiggestMask vpc.netmask (dedupFirstSeen (reqs.map (fun x => x.tierName))).length = .ok b →
      b < tm →
      allocateSubnetsCidrNoIpam (some tm) vpc reqs = .error .maskTooNarrow) := by
  constructor
  · intro tm netmask b vpc reqs hb hlt
    have htm : tm ≠ 0 := by omega
    unfold allocateSubnetsCidrIpam
    dsimp only
    rw [hb, except_bind_ok]
    have hcond : truthyGt (some tm) b = true := by
      simp [truthyGt, htm, hlt]
    rw [if_pos hcond]
  · intro tm b vpc reqs hb hlt
    have hdc : divideCidr vpc (dedupFirstSeen (reqs.map (fun x => x.tierName))).length
        (some tm) = .error .maskTooNarrow := by
      unfold divideCidr
      rw [hb, except_bind_ok]
      dsimp only
      simp only [Option.getD]
      rw [if_neg (by omega), if_pos hlt]
    unfold allocateSubnetsCidrNoIpam
    dsimp only
    rw [hdc, except_bind_error]

/-- C5 witness: a `/16` source with two tiers has maximum feasible tier
prefix `/17`; an explicit tier mask of 18 fails in both modes. -/
theorem C5_tier_mask_too_narrow_witness :
    allocateSubnetsCidrIpam (some 18) (some 16) (.lit "10.0.0.0/16") twoTierRequest =
      .error .tierMaskTooNarrow
  ∧ allocateSubnetsCidrNoIpam (some 18) ⟨167772160, 16⟩ twoTierRequest =
      .error .maskTooNarrow :=
  ⟨C5_tier_mask_too_narrow.1 18 16 17 (.lit "10.0.0.0/16") twoTierRequest rfl (by decide),
   C5_tier_mask_too_narrow.2 18 17 ⟨167772160, 16⟩ twoTierRequest rfl (by decide)⟩

/-- C6: within one tier, two subnets carrying distinct explicit prefix
lengths make the per-tier processing of either mode fail with the
inconsistent-subnet-size error (in IPAM mode once the feasibility
computation preceding the check in the source succeeds); a tier whose
subnets all carry the same explicit prefix length, or all leave it unset
(a constant `cidrMask` value), is never rejected with that error. -/
theorem C6_inconsistent_subnet_size :
    (∀ (azs : List String) (reqs : List RequestedSubnet) (tn : Cidr) (tier : String)
       (s₁ s₂ : RequestedSubnet) (m₁ m₂ : Nat),
      s₁ ∈ tierSubnetsOf reqs tier → s₂ ∈ tierSubnetsOf reqs tier →
      s₁.cidrMask = some m₁ → s₂.cidrMask = some m₂ → m₁ ≠ m₂ →
      processTierNoIpam azs reqs tn tier = .error .inconsistentSubnetSize)
  ∧ (∀ (azs : List String) (reqs : List RequestedSubnet) (etm b : Nat) (tn : CfnExpr)
       (tier : String) (s₁ s₂ : RequestedSubnet) (m₁ m₂ : Nat),
      getBiggestMask etm (tierSubnetsOf reqs tier).length = .ok b →
      s₁ ∈ tierSubnetsOf reqs tier → s₂ ∈ tierSubnetsOf reqs tier →
      s₁.cidrMask = some m₁ → s₂.cidrMask = some m₂ → m₁ ≠ m₂ →
      processTierIpam azs reqs etm tn tier = .error .inconsistentSubnetSize)
  ∧ (∀ (azs : List String) (reqs : List RequestedSubnet) (tn : Cidr) (tier : String)
       (c : Option Nat),
      (∀ x ∈ tierSubnetsOf reqs tier, x.cidrMask = c) →
      processTierNoIpam azs reqs tn tier ≠ .error .inconsistentSubnetSize)
  ∧ (∀ (azs : List String) (reqs : List RequestedSubnet) (etm : Nat) (tn : CfnExpr)
       (tier : String) (c : Option Nat),
      (∀ x ∈ tierSubnetsOf reqs tier, x.cidrMask = c) →
      processTierIpam azs reqs etm tn tier ≠ .error .inconsistentSubnetSize) := by
  have hmem2 : ∀ (reqs : List RequestedSubnet) (tier : String)
      (s₁ s₂ : RequestedSubnet) (m₁ m₂ : Nat),
      s₁ ∈ tierSubnetsOf reqs tier → s₂ ∈ tierSubnetsOf reqs tier →
      s₁.cidrMask = some m₁ → s₂.cidrMask = some m₂ → m₁ ≠ m₂ →
      1 < (tierMaskSet reqs tier).length := by
    intro reqs tier s₁ s₂ m₁ m₂ hs₁ hs₂ hm₁ hm₂ hm
    have h1 : (some m₁ : Option Nat) ∈ tierMaskSet reqs tier := by
      unfold tierMaskSet
      rw [mem_dedupFirstSeen]
      exact List.mem_map.mpr ⟨s₁, hs₁, hm₁⟩
    have h2 : (some m₂ : Option Nat) ∈ tierMaskSet reqs tier := by
      unfold tierMaskSet
      rw [mem_dedupFirstSeen]
      exact List.mem_map.mpr ⟨s₂, hs₂, hm₂⟩
    exact one_lt_length_of_two_mem h1 h2 (by simpa using hm)
  have hconstle : ∀ (reqs : List RequestedSubnet) (tier : String) (c : Option Nat),
      (∀ x ∈ tierSubnetsOf reqs tier, x.cidrMask = c) →
      (tierMaskSet reqs tier).length ≤ 1 := by
    intro reqs tier c hconst
    apply length_le_one_of_nodup_const (nodup_dedupFirstSeen _) (c := c)
    intro a ha
    unfold tierMaskSet at ha
    rw [mem_dedupFirstSeen] at ha
    obtain ⟨x, hx, hax⟩ := List.mem_map.mp ha
    rw [← hax]
    exact hconst x hx
  refine ⟨?_, ?_, ?_, ?_⟩
  · intro azs reqs tn tier s₁ s₂ m₁ m₂ hs₁ hs₂ hm₁ hm₂ hm
    have hlen := hmem2 reqs tier s₁ s₂ m₁ m₂ hs₁ hs₂ hm₁ hm₂ hm
    unfold processTierNoIpam
    rw [if_pos hlen]
  · intro azs reqs etm b tn tier s₁ s₂ m₁ m₂ hb hs₁ hs₂ hm₁ hm₂ hm
    have hlen := hmem2 reqs tier s₁ s₂ m₁ m₂ hs₁ hs₂ hm₁ hm₂ hm
    unfold processTierIpam
    dsimp only
    rw [hb, except_bind_ok]
    rw [if_pos hlen]
  · intro azs reqs tn tier c hconst
    have hle := hconstle reqs tier c hconst
    unfold processTierNoIpam
    dsimp only
    rw [if_neg (by omega)]
    intro hcontra
    cases hd : divideCidr tn azs.length ((tierMaskSet reqs tier).headD none) with
    | error e =>
      rw [hd, except_bind_error] at hcontra
      have he := Except.error.inj hcontra
      rcases divideCidr_error hd with h | h | h <;> simp_all
    | ok l =>
      rw [hd, except_bind_ok] at hcontra
      cases hcontra
  · intro azs reqs etm tn tier c hconst
    have hle := hconstle reqs tier c hconst
    unfold processTierIpam
    dsimp only
    cases hg : getBiggestMask etm (tierSubnetsOf reqs tier).length with
    | error e =>
      rw [except_bind_error]
      intro hcontra
      have he := Except.error.inj hcontra
      have := getBiggestMask_error hg
      simp_all
    | ok b =>
      rw [except_bind_ok]
      rw [if_neg (by omega)]
      split
      · simp
      · simp

/-- C6 witness: a tier with explicit masks 24 and 25 is rejected with the
inconsistent-size error in both modes; a tier whose subnets all use mask 24
(concrete mode) or all leave the mask unset (IPAM mode) is not. -/
theorem C6_inconsistent_subnet_size_witness :
    processTierNoIpam ["z1", "z2"] [⟨"t", "z1", some 24⟩, ⟨"t", "z2", some 25⟩]
      ⟨167772160, 16⟩ "t" = .error .inconsistentSubnetSize
  ∧ processTierIpam ["z1", "z2"] [⟨"t", "z1", some 24⟩, ⟨"t", "z2", some 25⟩]
      17 (.lit "tier") "t" = .error .inconsistentSubnetSize
  ∧ processTierNoIpam ["z1", "z2"] [⟨"t", "z1", some 24⟩, ⟨"t", "z2", some 24⟩]
      ⟨167772160, 16⟩ "t" ≠ .error .inconsistentSubnetSize
  ∧ processTierIpam ["z1", "z2"] [⟨"t", "z1", none⟩, ⟨"t", "z2", none⟩]
      17 (.lit "tier") "t" ≠ .error .inconsistentSubnetSize :=
  ⟨C6_inconsistent_subnet_size.1 ["z1", "z2"] [⟨"t", "z1", some 24⟩, ⟨"t", "z2", some 25⟩]
      ⟨167772160, 16⟩ "t" ⟨"t", "z1", some 24⟩ ⟨"t", "z2", some 25⟩ 24 25
      (by decide) (by decide) rfl rfl (by decide),
   C6_inconsistent_subnet_size.2.1 ["z1", "z2"] [⟨"t", "z1", some 24⟩, ⟨"t", "z2", some 25⟩]
      17 18 (.lit "tier") "t" ⟨"t", "z1", some 24⟩ ⟨"t", "z2", some 25⟩ 24 25
      rfl (by decide) (by decide) rfl rfl (by decide),
   C6_inconsistent_subnet_size.2.2.1 ["z1", "z2"] [⟨"t", "z1", some 24⟩, ⟨"t", "z2", some 24⟩]
      ⟨167772160, 16⟩ "t" (some 24) (by decide),
   C6_inconsistent_subnet_size.2.2.2 ["z1", "z2"] [⟨"t", "z1", none⟩, ⟨"t", "z2", none⟩]
      17 (.lit "tier") "t" none (by decide)⟩

/-- A pool that already provisioned the literal `10.0.0.0/8`. -/
def cidrPool : IpamPoolState :=
  ⟨"pools/cidr", none, none, none, ["10.0.0.0/8"], []⟩

/-- C4: a CIDR literal appears in `provisionedCidrs` at most once. Inline
registration of a literal already present fails with the duplicate-CIDR
error (leaving the state untouched, as the error precedes the push); every
successful `addCidrToPool` preserves the no-duplicates invariant;
`addTagRestriction` and `allocateCidrFromPool` do not touch
`provisionedCidrs` at all. -/
theorem C4_provisioned_cidrs_nodup :
    (∀ (s : IpamPoolState) (ai : Option Bool) (cfg : CidrConfiguration) (c : String),
      cfg.inline = true → ai.getD true = true → cfg.boundCidr = some c →
      c ∈ s.provisionedCidrs →
      addCidrToPool s ⟨ai, cfg⟩ = .error .duplicateCidr)
  ∧ (∀ (s : IpamPoolState) (o : AddCidrToPoolOptions) (r : AddCidrToPoolResult)
      (s' : IpamPoolState) (w : List String),
      s.provisionedCidrs.Nodup → addCidrToPool s o = .ok (r, s', w) →
      s'.provisionedCidrs.Nodup)
  ∧ (∀ (s : IpamPoolState) (k v : String) (s' : IpamPoolState),
      addTagRestriction s k v = .ok s' → s'.provisionedCidrs = s.provisionedCidrs)
  ∧ (∀ (s : IpamPoolState) (o : IpamAllocationOptions),
      (allocateCidrFromPool s o).2.provisionedCidrs = s.provisionedCidrs) := by
  refine ⟨?_, ?_, ?_, ?_⟩
  · intro s ai cfg c h1 h2 h3 hmem
    simp [addCidrToPool, h1, h2, h3, hmem]
  · intro s o r s' w hnd h
    unfold addCidrToPool at h
    split at h
    · cases h3 : o.configuration.boundCidr with
      | none =>
        rw [h3] at h
        dsimp only at h
        simp only [Except.ok.injEq, Prod.mk.injEq] at h
        obtain ⟨-, hs, -⟩ := h
        exact hs ▸ hnd
      | some c =>
        rw [h3] at h
        dsimp only at h
        split at h
        · cases h
        · rename_i hcont
          simp only [Except.ok.injEq, Prod.mk.injEq] at h
          obtain ⟨-, hs, -⟩ := h
          have hnot : c ∉ s.provisionedCidrs := by
            simp at hcont
            exact hcont
          rw [← hs]
          simp [List.nodup_append, hnd, hnot]
    · simp only [Except.ok.injEq, Prod.mk.injEq] at h
      obtain ⟨-, hs, -⟩ := h
      exact hs ▸ hnd
  · intro s k v s' h
    unfold addTagRestriction at h
    split at h
    · cases h
    · simp only [Except.ok.injEq] at h
      rw [← h]
  · intro s o
    rfl

/-- C4 witness: on a pool provisioned with `10.0.0.0/8`, inline
re-registration of that literal fails with the duplicate error; inline
registration of a fresh literal keeps the list duplicate-free; a tag
restriction leaves the list alone; an allocation leaves the state alone. -/
theorem C4_provisioned_cidrs_nodup_witness :
    addCidrToPool cidrPool ⟨none, ⟨true, some "10.0.0.0/8"⟩⟩ = .error .duplicateCidr
  ∧ (⟨"pools/cidr", none, none, none, ["10.0.0.0/8", "10.1.0.0/16"], []⟩ :
      IpamPoolState).provisionedCidrs.Nodup
  ∧ (⟨"pools/cidr", none, none, none, ["10.0.0.0/8"], [("env", "prod")]⟩ :
      IpamPoolState).provisionedCidrs = cidrPool.provisionedCidrs
  ∧ (allocateCidrFromPool cidrPool ⟨some 16⟩).2.provisionedCidrs = cidrPool.provisionedCidrs :=
  ⟨C4_provisioned_cidrs_nodup.1 cidrPool none ⟨true, some "10.0.0.0/8"⟩ "10.0.0.0/8"
      rfl rfl rfl (by decide),
   C4_provisioned_cidrs_nodup.2.1 cidrPool ⟨none, ⟨true, some "10.1.0.0/16"⟩⟩
      ⟨false, true⟩ ⟨"pools/cidr", none, none, none, ["10.0.0.0/8", "10.1.0.0/16"], []⟩ []
      (by decide) rfl,
   C4_provisioned_cidrs_nodup.2.2.1 cidrPool "env" "prod"
      ⟨"pools/cidr", none, none, none, ["10.0.0.0/8"], [("env", "prod")]⟩ rfl,
   C4_provisioned_cidrs_nodup.2.2.2 cidrPool ⟨some 16⟩⟩

/-- C7: an inline registration attempt (inline-capable configuration,
inline allowed) whose bound configuration yields no concrete CIDR does not
fail: it emits the non-fatal fallback warning and returns the deferred
(base-class) result with `inline: false`, leaving `provisionedCidrs` — the
whole pool state — unchanged. -/
theorem C7_inline_fallback_warns (s : IpamPoolState) (ai : Option Bool)
    (cfg : CidrConfiguration) (h1 : cfg.inline = true) (h2 : ai.getD true = true)
    (h3 : cfg.boundCidr = none) :
    addCidrToPool s ⟨ai, cfg⟩ = .ok (⟨true, false⟩, s, [inlineFallbackWarning]) := by
  cases cfg with
  | mk i b =>
    simp only at h1 h3
    subst h1
    subst h3
    simp [addCidrToPool, h2]

/-- C7 witness: the fallback at a concrete pool and configuration. -/
theorem C7_inline_fallback_warns_witness :
    addCidrToPool cidrPool ⟨none, ⟨true, none⟩⟩ =
      .ok (⟨true, false⟩, cidrPool, [inlineFallbackWarning]) :=
  C7_inline_fallback_warns cidrPool none ⟨true, none⟩ rfl rfl rfl

/-- C10: `allocateCidrFromPool` returns a fresh allocation referencing this
pool with the requested netmask length, and returns the pool state itself
completely unchanged (every field). -/
theorem C10_allocate_cidr_frame (s : IpamPoolState) (options : IpamAllocationOptions) :
    allocateCidrFromPool s options = (⟨s.poolPath, options.netmaskLength⟩, s) :=
  rfl

/-- C8 counterexample: a container that already holds five scopes accepts a
sixth scope without any scope-quota-exceeded failure — `IpamBase.addScope`
performs no quota check. -/
theorem C8_scope_quota_not_enforced_counterexample :
    ipamWithFiveScopes.scopes.length = 5
  ∧ addScope ipamWithFiveScopes "s6" =
      .ok (⟨["scope-s1", "scope-s2", "scope-s3", "scope-s4", "scope-s5", "scope-s6"],
           ["scope-s1", "scope-s2", "scope-s3", "scope-s4", "scope-s5", "scope-s6"],
           [], []⟩, "scope-s6") :=
  ⟨rfl, rfl⟩

/-- C8 (amended): `addScope` always creates a new scope under the container,
regardless of how many scopes the container already holds; the five-scope
quota is only documented (as the AWS service quota behind `ipamScopeCount`),
never enforced, and the only failure mode is reusing a construct id. -/
theorem C8_add_scope_unbounded (s : IpamState) (id : String)
    (h : ("scope-" ++ id) ∉ s.childIds) :
    addScope s id =
      .ok ({ s with childIds := s.childIds ++ ["scope-" ++ id],
                    scopes := s.scopes ++ ["scope-" ++ id] }, "scope-" ++ id) := by
  have hc : ¬ (s.childIds.contains ("scope-" ++ id) = true) := by simpa using h
  unfold addScope ipamAddChild
  rw [if_neg hc]

/-- C8 witness: the sixth scope is created on a five-scope container. -/
theorem C8_add_scope_unbounded_witness :
    addScope ipamWithFiveScopes "w6" =
      .ok ({ ipamWithFiveScopes with childIds := ipamWithFiveScopes.childIds ++ ["scope-" ++ "w6"],
                                      scopes := ipamWithFiveScopes.scopes ++ ["scope-" ++ "w6"] },
           "scope-" ++ "w6") :=
  C8_add_scope_unbounded ipamWithFiveScopes "w6" (by decide)

/-- C9 counterexample: associating the same resource-discovery reference a
second time is not a no-op — the association construct id derived from the
reference's address collides and the call fails with the
duplicate-construct-id error instead of returning successfully. -/
theorem C9_reassociation_not_noop_counterexample :
    associateResourceDiscovery ⟨[], [], [], []⟩ "disc1" =
      .ok (⟨["resource-discovery-disc1"], [], ["disc1"], []⟩, "resource-discovery-disc1")
  ∧ associateResourceDiscovery ⟨["resource-discovery-disc1"], [], ["disc1"], []⟩ "disc1" =
      .error .duplicateConstructId :=
  ⟨rfl, rfl⟩

/-- C9 (amended): the association's construct id is derived from the
discovery reference's address, so re-association with the same reference can
never create a second association entity: once the id is present the call
fails with the duplicate-construct-id error (leaving the container with the
single original association), and a first association with a fresh address
records exactly one association entity. -/
theorem C9_association_key_from_address :
    (∀ (s : IpamState) (a : String), ("resource-discovery-" ++ a) ∈ s.childIds →
      associateResourceDiscovery s a = .error .duplicateConstructId)
  ∧ (∀ (s : IpamState) (a : String), ("resource-discovery-" ++ a) ∉ s.childIds →
      associateResourceDiscovery s a =
        .ok ({ s with childIds := s.childIds ++ ["resource-discovery-" ++ a],
                      associations := s.associations ++ [a] }, "resource-discovery-" ++ a)) := by
  constructor
  · intro s a h
    have hc : s.childIds.contains ("resource-discovery-" ++ a) = true := by simpa using h
    unfold associateResourceDiscovery ipamAddChild
    rw [if_pos hc]
  · intro s a h
    have hc : ¬ (s.childIds.contains ("resource-discovery-" ++ a) = true) := by simpa using h
    unfold associateResourceDiscovery ipamAddChild
    rw [if_neg hc]

/-- C9 witness: a fresh association succeeds once and the repeat attempt on
the resulting container fails with the duplicate-construct-id error. -/
theorem C9_association_key_from_address_witness :
    associateResourceDiscovery ⟨[], [], [], []⟩ "w1" =
      .ok ({ (⟨[], [], [], []⟩ : IpamState) with childIds := [] ++ ["resource-discovery-" ++ "w1"],
                                                 associations := [] ++ ["w1"] },
           "resource-discovery-" ++ "w1")
  ∧ associateResourceDiscovery ⟨["resource-discovery-w1"], [], ["w1"], []⟩ "w1" =
      .error .duplicateConstructId :=
  ⟨C9_association_key_from_address.2 ⟨[], [], [], []⟩ "w1" (by decide),
   C9_association_key_from_address.1 ⟨["resource-discovery-w1"], [], ["w1"], []⟩ "w1"
     (by decide)⟩

end CdkExt
